import Mathlib

/-!
Verification of the OAuth-and-session gateway of the mcp-tmdb server.

The development shallowly embeds the handlers of the repository:
the authorization endpoint, token endpoint and bearer-auth middleware of
the streamable-HTTP OAuth variant, the authorization and token endpoints
of the SSE OAuth variant, the session registries of the streamable-HTTP
and SSE transports, and the tool dispatchers of the chatgpt and final
variants.  JavaScript Map objects are modelled as association lists keyed
by strings; Map.set is modelled as removal of the key followed by
insertion, which agrees with the JavaScript Map on lookup, membership and
size.  Date.now() is passed in as a natural-number parameter, freshly
generated UUIDs are passed in as string parameters, the WHATWG URL parser
and the SHA-256/base64url digest are passed in as function parameters
(both live outside the repository), and outbound HTTP calls to the TMDB
collaborator are modelled as Except values (error = a thrown exception).
-/

/-- Association-list model of a JavaScript Map with string keys. -/
abbrev Store (α : Type) : Type := List (String × α)

/-- Lookup of a key, first match wins (JavaScript Map.get). -/
def Store.get {α : Type} (s : Store α) (k : String) : Option α :=
  match s with
  | [] => none
  | (k', v) :: rest => if k' = k then some v else Store.get rest k

/-- Removal of every entry with the given key (JavaScript Map.delete). -/
def Store.delete {α : Type} (s : Store α) (k : String) : Store α :=
  match s with
  | [] => []
  | (k', v) :: rest =>
      if k' = k then Store.delete rest k else (k', v) :: Store.delete rest k

/-- Insertion of a binding, replacing any existing binding of the key
(JavaScript Map.set, up to entry order). -/
def Store.set {α : Type} (s : Store α) (k : String) (v : α) : Store α :=
  (k, v) :: Store.delete s k

/-- Number of entries carrying the given key. -/
def Store.countKey {α : Type} (s : Store α) (k : String) : Nat :=
  match s with
  | [] => 0
  | (k', _) :: rest => (if k' = k then 1 else 0) + Store.countKey rest k

theorem Store.get_delete_self {α : Type} (s : Store α) (k : String) :
    Store.get (Store.delete s k) k = none := by
  induction s with
  | nil => rfl
  | cons p rest ih =>
      obtain ⟨k', v⟩ := p
      by_cases h : k' = k
      · simpa [Store.delete, h] using ih
      · simpa [Store.delete, Store.get, h] using ih

theorem Store.delete_eq_self_of_get_none {α : Type} (s : Store α) (k : String)
    (h : Store.get s k = none) : Store.delete s k = s := by
  induction s with
  | nil => rfl
  | cons p rest ih =>
      obtain ⟨k', v⟩ := p
      by_cases hk : k' = k
      · simp [Store.get, hk] at h
      · simp only [Store.get, if_neg hk] at h
        simp [Store.delete, hk, ih h]

theorem Store.get_set_self {α : Type} (s : Store α) (k : String) (v : α) :
    Store.get (Store.set s k v) k = some v := by
  simp [Store.set, Store.get]

theorem Store.length_set_of_get_none {α : Type} (s : Store α) (k : String) (v : α)
    (h : Store.get s k = none) :
    (Store.set s k v).length = s.length + 1 := by
  simp [Store.set, Store.delete_eq_self_of_get_none s k h]

theorem Store.countKey_delete_self {α : Type} (s : Store α) (k : String) :
    Store.countKey (Store.delete s k) k = 0 := by
  induction s with
  | nil => rfl
  | cons p rest ih =>
      obtain ⟨k', v⟩ := p
      by_cases h : k' = k
      · simpa [Store.delete, h] using ih
      · simpa [Store.delete, Store.countKey, h] using ih

theorem Store.countKey_set_self {α : Type} (s : Store α) (k : String) (v : α) :
    Store.countKey (Store.set s k v) k = 1 := by
  simp [Store.set, Store.countKey, Store.countKey_delete_self]

/-- JavaScript truthiness of an optional string: undefined and the empty
string are falsy, every other string is truthy. -/
def jsTruthy : Option String → Bool
  | none => false
  | some s => !s.isEmpty

/-- JavaScript `x || d` on an optional string: the default replaces an
undefined or empty (falsy) value. -/
def jsOr (o : Option String) (d : String) : String :=
  match o with
  | none => d
  | some s => if s.isEmpty then d else s

/-- Stored authorization-code record of the streamable-HTTP OAuth variant
(authorizationCodes map).  The scope and code_challenge_method fields hold
the destructuring defaults applied at the authorization endpoint. -/
structure CodeRecord where
  client_id : String
  redirect_uri : Option String
  scope : String
  code_challenge : Option String
  code_challenge_method : String
  expires_at : Nat
  deriving DecidableEq

/-- Stored access-token record of the streamable-HTTP OAuth variant
(accessTokens map). -/
structure TokenRecord where
  client_id : String
  scope : String
  expires_at : Nat
  deriving DecidableEq

/-- The two OAuth maps of the streamable-HTTP OAuth variant. -/
structure OAuthState where
  codes : Store CodeRecord
  tokens : Store TokenRecord
  deriving DecidableEq

/-- Response of the token endpoint: the JSON token payload on success, or
a 400 JSON error body (the details field of the error JSON is dropped). -/
inductive TokenResponse where
  | ok (access_token : String) (token_type : String) (expires_in : Nat) (scope : String)
  | badRequest (error : String)
  deriving DecidableEq

/-- Success path of the authorization-code grant (lines 189 to 204 of the
streamable-HTTP OAuth variant): delete the code, mint a one-hour access
token bound to the client id and scope of the code, answer with the token
JSON. -/
def issueAccessToken (now : Nat) (freshToken : String) (c : String)
    (authData : CodeRecord) (st : OAuthState) : TokenResponse × OAuthState :=
  (.ok freshToken "Bearer" 3600 authData.scope,
   { codes := Store.delete st.codes c,
     tokens := Store.set st.tokens freshToken
       ({ client_id := authData.client_id, scope := authData.scope,
          expires_at := now + 3600000 }) })

/-- Authorization-code branch of the token endpoint of the streamable-HTTP
OAuth variant (lines 171 to 205): look up the code, reject an absent or
expired record and a PKCE mismatch with invalid_grant, otherwise issue an
access token.  The PKCE check runs only when the stored code_challenge and
the presented code_verifier are both truthy, mirroring the guard in the
source. -/
def exchangeCode (hash : String → String) (now : Nat) (freshToken : String)
    (code_verifier : Option String) (c : String) (st : OAuthState) :
    TokenResponse × OAuthState :=
  match Store.get st.codes c with
  | none => (.badRequest "invalid_grant", st)
  | some authData =>
    if authData.expires_at < now then (.badRequest "invalid_grant", st)
    else
      if jsTruthy authData.code_challenge && jsTruthy code_verifier then
        if hash (code_verifier.getD "") ≠ authData.code_challenge.getD "" then
          (.badRequest "invalid_grant", st)
        else issueAccessToken now freshToken c authData st
      else issueAccessToken now freshToken c authData st

/-- Token endpoint of the streamable-HTTP OAuth variant
(app.post on /oauth/token).  The hash parameter stands for the external
SHA-256/base64url digest (crypto.createHash), now for Date.now(), and
freshToken for the freshly generated crypto.randomUUID(). -/
def tokenEndpoint (hash : String → String) (now : Nat) (freshToken : String)
    (grant_type code client_id code_verifier : Option String)
    (st : OAuthState) : TokenResponse × OAuthState :=
  if grant_type = some "client_credentials" then
    let rec1 : TokenRecord :=
      { client_id := jsOr client_id "tmdb-mcp-client", scope := "tmdb:read",
        expires_at := now + 3600000 }
    (.ok freshToken "Bearer" 3600 "tmdb:read",
     { st with tokens := Store.set st.tokens freshToken rec1 })
  else if grant_type = some "authorization_code" then
    match code with
    | none => (.badRequest "invalid_grant", st)
    | some c => exchangeCode hash now freshToken code_verifier c st
  else (.badRequest "unsupported_grant_type", st)

theorem tokenEndpoint_authcode (hash : String → String) (now : Nat) (ft : String)
    (cid v : Option String) (c : String) (st : OAuthState) :
    tokenEndpoint hash now ft (some "authorization_code") (some c) cid v st
      = exchangeCode hash now ft v c st := by
  unfold tokenEndpoint
  rw [if_neg (by decide), if_pos rfl]

theorem exchangeCode_get_none (hash : String → String) (now : Nat) (ft : String)
    (v : Option String) (c : String) (st : OAuthState)
    (h : Store.get st.codes c = none) :
    exchangeCode hash now ft v c st = (.badRequest "invalid_grant", st) := by
  unfold exchangeCode
  rw [h]

theorem exchangeCode_eq_some (hash : String → String) (now : Nat) (ft : String)
    (v : Option String) (c : String) (st : OAuthState) (authData : CodeRecord)
    (hg : Store.get st.codes c = some authData) :
    exchangeCode hash now ft v c st
      = if authData.expires_at < now then (.badRequest "invalid_grant", st)
        else
          if jsTruthy authData.code_challenge && jsTruthy v then
            if hash (v.getD "") ≠ authData.code_challenge.getD "" then
              (.badRequest "invalid_grant", st)
            else issueAccessToken now ft c authData st
          else issueAccessToken now ft c authData st := by
  unfold exchangeCode
  rw [hg]

theorem exchangeCode_ok_codes (hash : String → String) (now : Nat) (ft : String)
    (v : Option String) (c : String) (st : OAuthState)
    (a tt : String) (ei : Nat) (sc : String)
    (h : (exchangeCode hash now ft v c st).1 = .ok a tt ei sc) :
    (exchangeCode hash now ft v c st).2.codes = Store.delete st.codes c := by
  cases hg : Store.get st.codes c with
  | none => rw [exchangeCode_get_none hash now ft v c st hg] at h; simp at h
  | some authData =>
      rw [exchangeCode_eq_some hash now ft v c st authData hg] at h ⊢
      by_cases he : authData.expires_at < now
      · rw [if_pos he] at h; simp at h
      · rw [if_neg he] at h ⊢
        by_cases hp : (jsTruthy authData.code_challenge && jsTruthy v) = true
        · rw [if_pos hp] at h ⊢
          by_cases hm : hash (v.getD "") ≠ authData.code_challenge.getD ""
          · rw [if_pos hm] at h; simp at h
          · rw [if_neg hm]; rfl
        · rw [if_neg hp]; rfl

/-- C1: a successful authorization-code exchange removes the code from the
code store, and any later exchange attempt with the same code answers with
the invalid_grant error, whatever digest function, clock value, fresh
token, client id or verifier the second attempt uses. -/
theorem C1_code_single_use (hash1 hash2 : String → String) (now1 now2 : Nat)
    (t1 t2 : String) (cid1 cid2 v1 v2 : Option String) (c : String)
    (st : OAuthState) (a tt : String) (ei : Nat) (sc : String)
    (h : (tokenEndpoint hash1 now1 t1 (some "authorization_code") (some c) cid1 v1 st).1
      = .ok a tt ei sc) :
    Store.get
        (tokenEndpoint hash1 now1 t1 (some "authorization_code") (some c) cid1 v1 st).2.codes
        c = none
    ∧ (tokenEndpoint hash2 now2 t2 (some "authorization_code") (some c) cid2 v2
        (tokenEndpoint hash1 now1 t1 (some "authorization_code") (some c) cid1 v1 st).2).1
      = .badRequest "invalid_grant" := by
  simp only [tokenEndpoint_authcode] at h ⊢
  have hc := exchangeCode_ok_codes hash1 now1 t1 v1 c st a tt ei sc h
  have hn : Store.get (exchangeCode hash1 now1 t1 v1 c st).2.codes c = none := by
    rw [hc]; exact Store.get_delete_self st.codes c
  refine ⟨hn, ?_⟩
  rw [exchangeCode_get_none hash2 now2 t2 v2 c _ hn]

/-- Sample OAuth state used by the C1 witness: one stored authorization
code without a PKCE challenge. -/
def c1State : OAuthState :=
  { codes := [("c", { client_id := "tmdb-mcp-client",
                      redirect_uri := some "https://chatgpt.com/oauth/callback",
                      scope := "tmdb:read", code_challenge := none,
                      code_challenge_method := "S256", expires_at := 1000 })],
    tokens := [] }

/-- Witness for C1 at a concrete store, code and clock. -/
theorem C1_code_single_use_witness :
    Store.get
        (tokenEndpoint (fun _ => "") 0 "t1" (some "authorization_code") (some "c")
          none none c1State).2.codes "c" = none
    ∧ (tokenEndpoint (fun _ => "") 5 "t2" (some "authorization_code") (some "c")
        none none
        (tokenEndpoint (fun _ => "") 0 "t1" (some "authorization_code") (some "c")
          none none c1State).2).1 = .badRequest "invalid_grant" :=
  C1_code_single_use (fun _ => "") (fun _ => "") 0 5 "t1" "t2" none none none none
    "c" c1State "t1" "Bearer" 3600 "tmdb:read" (by decide)

/-- Model of the JavaScript String.startsWith method over the character
list of the string (kernel-evaluable). -/
def strStartsWith (s p : String) : Bool := List.isPrefixOf p.data s.data

/-- Model of the JavaScript String.slice(n) method over the character
list of the string. -/
def strDrop (s : String) (n : Nat) : String := String.mk (s.data.drop n)

/-- Outcome of the bearer-auth middleware of the streamable-HTTP OAuth
variant: a 401 JSON error, or the request proceeds with the resolved
token record attached to the request context. -/
inductive AuthResult where
  | reject (status : Nat) (error : String)
  | proceed (tokenData : TokenRecord)
  deriving DecidableEq

/-- Body of the bearer-auth middleware once an Authorization header is
present: reject a header lacking the Bearer prefix, look the token
(slice from position 7) up in the accessTokens map, reject an absent or
expired record with 401 invalid_token, otherwise proceed with the
record. -/
def bearerCheck (tokens : Store TokenRecord) (h : String) (now : Nat) :
    AuthResult × Store TokenRecord :=
  if !(strStartsWith h "Bearer ") then (.reject 401 "invalid_token", tokens)
  else
    match Store.get tokens (strDrop h 7) with
    | none => (.reject 401 "invalid_token", tokens)
    | some tokenData =>
      if tokenData.expires_at < now then (.reject 401 "invalid_token", tokens)
      else (.proceed tokenData, tokens)

/-- Bearer-auth middleware requireAuth of the streamable-HTTP OAuth
variant (lines 212 to 227).  A missing (or otherwise falsy) Authorization
header is rejected with the same 401 invalid_token answer as a malformed
one.  The accessTokens map is threaded through and returned so that the
frame behaviour of the middleware is part of the embedding; the source
only ever reads the map. -/
def requireAuth (tokens : Store TokenRecord) (authHeader : Option String)
    (now : Nat) : AuthResult × Store TokenRecord :=
  match authHeader with
  | none => (.reject 401 "invalid_token", tokens)
  | some h => bearerCheck tokens h now

theorem bearerCheck_eq_some (tokens : Store TokenRecord) (h : String) (now : Nat)
    (tokenData : TokenRecord) (hb : strStartsWith h "Bearer " = true)
    (hg : Store.get tokens (strDrop h 7) = some tokenData) :
    bearerCheck tokens h now
      = if tokenData.expires_at < now then (.reject 401 "invalid_token", tokens)
        else (.proceed tokenData, tokens) := by
  unfold bearerCheck
  rw [hb, hg]
  rfl

theorem bearerCheck_get_none (tokens : Store TokenRecord) (h : String) (now : Nat)
    (hg : Store.get tokens (strDrop h 7) = none) :
    bearerCheck tokens h now = (.reject 401 "invalid_token", tokens) := by
  unfold bearerCheck
  cases hb : strStartsWith h "Bearer " with
  | false => rfl
  | true => rw [hg]; rfl

/-- C3: a bearer token whose expires_at lies strictly in the past is
rejected with the 401 invalid_token answer, and the middleware gives the
very same answer it would give if the record had been physically removed
from the store, even though the record is still present. -/
theorem C3_expired_token_treated_absent (tokens : Store TokenRecord) (h : String)
    (tokenData : TokenRecord) (now : Nat)
    (hb : strStartsWith h "Bearer " = true)
    (hg : Store.get tokens (strDrop h 7) = some tokenData)
    (hexp : tokenData.expires_at < now) :
    (requireAuth tokens (some h) now).1 = .reject 401 "invalid_token"
    ∧ (requireAuth tokens (some h) now).1
      = (requireAuth (Store.delete tokens (strDrop h 7)) (some h) now).1 := by
  show (bearerCheck tokens h now).1 = _
    ∧ (bearerCheck tokens h now).1
      = (bearerCheck (Store.delete tokens (strDrop h 7)) h now).1
  rw [bearerCheck_eq_some tokens h now tokenData hb hg, if_pos hexp]
  rw [bearerCheck_get_none (Store.delete tokens (strDrop h 7)) h now
    (Store.get_delete_self tokens (strDrop h 7))]
  exact ⟨rfl, rfl⟩

/-- Sample expired token record used by the C3 witness. -/
def c3Record : TokenRecord :=
  { client_id := "tmdb-mcp-client", scope := "tmdb:read", expires_at := 5 }

/-- Sample token store used by the C3 witness. -/
def c3Tokens : Store TokenRecord := [("abc", c3Record)]

/-- Witness for C3 at a concrete expired token. -/
theorem C3_expired_token_treated_absent_witness :
    (requireAuth c3Tokens (some "Bearer abc") 10).1 = .reject 401 "invalid_token"
    ∧ (requireAuth c3Tokens (some "Bearer abc") 10).1
      = (requireAuth (Store.delete c3Tokens (strDrop "Bearer abc" 7))
          (some "Bearer abc") 10).1 :=
  C3_expired_token_treated_absent c3Tokens "Bearer abc" c3Record 10
    (by decide) (by decide) (by decide)

/-- C9: the bearer-auth middleware never mutates the credential store,
whatever the header, clock value or store contents, and whichever of its
outcomes (missing or malformed header, unknown token, expired token,
admitted request) it takes. -/
theorem C9_auth_gate_frame (tokens : Store TokenRecord) (authHeader : Option String)
    (now : Nat) : (requireAuth tokens authHeader now).2 = tokens := by
  cases authHeader with
  | none => rfl
  | some h =>
    show (bearerCheck tokens h now).2 = tokens
    cases hb : strStartsWith h "Bearer " with
    | false => unfold bearerCheck; rw [hb]; rfl
    | true =>
      cases hg : Store.get tokens (strDrop h 7) with
      | none => rw [bearerCheck_get_none tokens h now hg]
      | some tokenData =>
        rw [bearerCheck_eq_some tokens h now tokenData hb hg]
        by_cases he : tokenData.expires_at < now
        · rw [if_pos he]
        · rw [if_neg he]

theorem jsTruthy_some_ne (s : String) (h : s ≠ "") : jsTruthy (some s) = true := by
  simp only [jsTruthy]
  cases he : s.isEmpty with
  | false => rfl
  | true => exact absurd ((String.isEmpty_iff s).mp he) h

/-- Sample stored authorization code carrying a PKCE challenge, used by
the C2 theorems. -/
def c2Record : CodeRecord :=
  { client_id := "tmdb-mcp-client",
    redirect_uri := some "https://chatgpt.com/oauth/callback",
    scope := "tmdb:read", code_challenge := some "CHL",
    code_challenge_method := "S256", expires_at := 1000 }

/-- Sample OAuth state used by the C2 theorems. -/
def c2State : OAuthState := { codes := [("c", c2Record)], tokens := [] }

/-- Digest stub used by the C2 witness. -/
def c2hash : String → String := fun s => if s = "good" then "CHL" else "BAD"

/-- Counterexample to C2 as stated: the stored code carries a
code_challenge, the request presents no code_verifier at all, and the
exchange nevertheless succeeds, because the source guards the PKCE check
with the conjunction authData.code_challenge AND code_verifier, so an
absent verifier skips verification instead of failing with
invalid_grant. -/
theorem C2_absent_verifier_counterexample :
    (tokenEndpoint (fun _ => "unrelated-digest") 0 "tok1" (some "authorization_code")
      (some "c") none none c2State).1 = .ok "tok1" "Bearer" 3600 "tmdb:read"
    ∧ (tokenEndpoint (fun _ => "unrelated-digest") 0 "tok1" (some "authorization_code")
      (some "c") none none c2State).1 ≠ .badRequest "invalid_grant" := by
  decide

/-- C2 amended: when the stored record carries a nonempty code_challenge
and a nonempty code_verifier is presented, a digest mismatch fails the
exchange with invalid_grant and a matching digest makes it succeed; a
verifier that is absent (or empty, hence falsy) bypasses the PKCE check
entirely and the exchange succeeds. -/
theorem C2_pkce_amended (hash : String → String) (now : Nat) (ft : String)
    (cid : Option String) (c ch : String) (authData : CodeRecord) (st : OAuthState)
    (hg : Store.get st.codes c = some authData)
    (hexp : ¬ authData.expires_at < now)
    (hch : authData.code_challenge = some ch) (hch0 : ch ≠ "") :
    (∀ v : String, v ≠ "" → hash v ≠ ch →
      (tokenEndpoint hash now ft (some "authorization_code") (some c) cid (some v) st).1
        = .badRequest "invalid_grant")
    ∧ (∀ v : String, hash v = ch →
      (tokenEndpoint hash now ft (some "authorization_code") (some c) cid (some v) st).1
        = .ok ft "Bearer" 3600 authData.scope)
    ∧ (tokenEndpoint hash now ft (some "authorization_code") (some c) cid none st).1
        = .ok ft "Bearer" 3600 authData.scope := by
  refine ⟨?_, ?_, ?_⟩
  · intro v hv hm
    rw [tokenEndpoint_authcode,
      exchangeCode_eq_some hash now ft (some v) c st authData hg, if_neg hexp]
    have hguard : (jsTruthy authData.code_challenge && jsTruthy (some v)) = true := by
      rw [hch, jsTruthy_some_ne ch hch0, jsTruthy_some_ne v hv]; rfl
    rw [if_pos hguard]
    have hne : hash ((some v).getD "") ≠ authData.code_challenge.getD "" := by
      simpa [hch] using hm
    rw [if_pos hne]
  · intro v hm
    rw [tokenEndpoint_authcode,
      exchangeCode_eq_some hash now ft (some v) c st authData hg, if_neg hexp]
    by_cases hv : v = ""
    · subst hv
      have hguard : (jsTruthy authData.code_challenge && jsTruthy (some "")) = false := by
        have h2 : jsTruthy (some "") = false := by decide
        rw [h2, Bool.and_false]
      rw [hguard]
      rfl
    · have hguard : (jsTruthy authData.code_challenge && jsTruthy (some v)) = true := by
        rw [hch, jsTruthy_some_ne ch hch0, jsTruthy_some_ne v hv]; rfl
      rw [if_pos hguard]
      have heq : ¬ hash ((some v).getD "") ≠ authData.code_challenge.getD "" := by
        simp [hch, hm]
      rw [if_neg heq]
      rfl
  · rw [tokenEndpoint_authcode,
      exchangeCode_eq_some hash now ft none c st authData hg, if_neg hexp]
    have hguard : (jsTruthy authData.code_challenge && jsTruthy none) = false := by
      simp [jsTruthy]
    rw [hguard]
    rfl

/-- Witness for the amended C2 at a concrete store, challenge and digest
stub: a mismatching verifier is rejected, a matching one succeeds. -/
theorem C2_pkce_amended_witness :
    (tokenEndpoint c2hash 0 "t1" (some "authorization_code") (some "c")
      none (some "evil") c2State).1 = .badRequest "invalid_grant"
    ∧ (tokenEndpoint c2hash 0 "t1" (some "authorization_code") (some "c")
      none (some "good") c2State).1 = .ok "t1" "Bearer" 3600 "tmdb:read" := by
  have h := C2_pkce_amended c2hash 0 "t1" none "c" "CHL" c2Record c2State
    (by decide) (by decide) (by decide) (by decide)
  exact ⟨h.1 "evil" (by decide) (by decide), h.2.1 "good" (by decide)⟩

/-- Response of an authorization endpoint: a redirect to the parsed
callback URL with the code and (when truthy) the state attached as query
parameters, or a 400 JSON error. -/
inductive AuthorizeResponse where
  | redirect (base : String) (code : String) (state : Option String)
  | badRequest (error : String)
  deriving DecidableEq

/-- Authorization endpoint of the streamable-HTTP OAuth variant
(app.get on /oauth/authorize, lines 92 to 136).  The parseUrl parameter
stands for the WHATWG URL constructor (some = parses, none = the
constructor throws), freshCode for crypto.randomUUID(), now for
Date.now().  The handler stores the fresh code record first and only then
tries to parse redirect_uri; an unparsable redirect_uri is answered with
the 400 invalid_redirect_uri JSON error. -/
def authorize (parseUrl : String → Option String) (freshCode : String) (now : Nat)
    (client_id redirect_uri scope state response_type
      code_challenge code_challenge_method : Option String)
    (codes : Store CodeRecord) : AuthorizeResponse × Store CodeRecord :=
  let record : CodeRecord :=
    { client_id := jsOr client_id "tmdb-mcp-client",
      redirect_uri := redirect_uri,
      scope := scope.getD "tmdb:read",
      code_challenge := code_challenge,
      code_challenge_method := code_challenge_method.getD "S256",
      expires_at := now + 600000 }
  let codes2 := Store.set codes freshCode record
  match Option.bind redirect_uri parseUrl with
  | some u => (.redirect u freshCode (if jsTruthy state then state else none), codes2)
  | none => (.badRequest "invalid_redirect_uri", codes2)

/-- Stored code record of the SSE OAuth variant (the single tokens map of
that file; code records carry no type tag and no expiry). -/
structure SseCodeRecord where
  client_id : String
  scope : String
  created_at : Nat
  deriving DecidableEq

/-- Authorization endpoint of the SSE OAuth variant (app.get on
/oauth/authorize, lines 39 to 58).  The handler stores the fresh code and
then calls the URL constructor on redirect_uri with no try/catch around
it: when the constructor throws, the TypeError escapes the handler (the
framework turns it into a 500 answer), modelled as the Except.error
component of the response. -/
def authorizeSse (parseUrl : String → Option String) (freshCode : String) (now : Nat)
    (client_id redirect_uri scope state : Option String)
    (tokens : Store SseCodeRecord) :
    Except String AuthorizeResponse × Store SseCodeRecord :=
  let record : SseCodeRecord :=
    { client_id := jsOr client_id "default", scope := jsOr scope "read",
      created_at := now }
  let tokens2 := Store.set tokens freshCode record
  match Option.bind redirect_uri parseUrl with
  | some u => (.ok (.redirect u freshCode (if jsTruthy state then state else none)), tokens2)
  | none => (.error "TypeError: Invalid URL", tokens2)

/-- Counterexample to C4 as stated: in the SSE OAuth variant (one of the
two cited authorization endpoints) a request whose redirect_uri fails to
parse is not answered with a 400-class InvalidRedirect failure; the URL
constructor error escapes the handler uncaught, so the caller sees a
framework 500, not the invalid_redirect_uri body. -/
theorem C4_sse_unparsable_counterexample :
    (authorizeSse (fun _ => none) "ac1" 0 none (some "not a url") none none []).1
      = Except.error "TypeError: Invalid URL"
    ∧ (authorizeSse (fun _ => none) "ac1" 0 none (some "not a url") none none []).1
      ≠ Except.ok (.badRequest "invalid_redirect_uri") := by
  exact ⟨rfl, fun h => nomatch h⟩

/-- C4 amended: in the streamable-HTTP OAuth variant a request whose
redirect_uri is absent or fails to parse is answered with the 400
invalid_redirect_uri JSON error and no redirect is issued; the SSE OAuth
variant instead lets the URL constructor error escape unhandled. -/
theorem C4_invalid_redirect_amended (parseUrl : String → Option String)
    (freshCode : String) (now : Nat)
    (client_id redirect_uri scope state response_type
      code_challenge code_challenge_method : Option String)
    (codes : Store CodeRecord)
    (hparse : Option.bind redirect_uri parseUrl = none) :
    (authorize parseUrl freshCode now client_id redirect_uri scope state response_type
        code_challenge code_challenge_method codes).1 = .badRequest "invalid_redirect_uri"
    ∧ ∀ u cd stt,
      (authorize parseUrl freshCode now client_id redirect_uri scope state response_type
        code_challenge code_challenge_method codes).1 ≠ .redirect u cd stt := by
  unfold authorize
  rw [hparse]
  exact ⟨rfl, fun u cd stt h => by simp at h⟩

/-- Witness for the amended C4 at a concrete unparsable redirect_uri. -/
theorem C4_invalid_redirect_amended_witness :
    (authorize (fun _ => none) "ac1" 0 none (some "not a url") none none none
        none none []).1 = .badRequest "invalid_redirect_uri"
    ∧ ∀ u cd stt,
      (authorize (fun _ => none) "ac1" 0 none (some "not a url") none none none
        none none []).1 ≠ .redirect u cd stt :=
  C4_invalid_redirect_amended (fun _ => none) "ac1" 0 none (some "not a url")
    none none none none none [] (by decide)

/-- C10: the authorization endpoint of the streamable-HTTP OAuth variant
inserts the fresh code record into the code store before redirect_uri is
ever parsed, and the invalid_redirect_uri failure path does not remove
it: when the fresh code is not yet in the store, the failure response
leaves the store one entry larger, holding exactly the record built from
the request parameters. -/
theorem C10_failed_authorize_grows_store (parseUrl : String → Option String)
    (freshCode : String) (now : Nat)
    (client_id redirect_uri scope state response_type
      code_challenge code_challenge_method : Option String)
    (codes : Store CodeRecord)
    (hparse : Option.bind redirect_uri parseUrl = none)
    (hfresh : Store.get codes freshCode = none) :
    (authorize parseUrl freshCode now client_id redirect_uri scope state response_type
        code_challenge code_challenge_method codes).1 = .badRequest "invalid_redirect_uri"
    ∧ (authorize parseUrl freshCode now client_id redirect_uri scope state response_type
        code_challenge code_challenge_method codes).2
      = Store.set codes freshCode
          { client_id := jsOr client_id "tmdb-mcp-client",
            redirect_uri := redirect_uri,
            scope := scope.getD "tmdb:read",
            code_challenge := code_challenge,
            code_challenge_method := code_challenge_method.getD "S256",
            expires_at := now + 600000 }
    ∧ (authorize parseUrl freshCode now client_id redirect_uri scope state response_type
        code_challenge code_challenge_method codes).2.length = codes.length + 1 := by
  unfold authorize
  rw [hparse]
  exact ⟨rfl, rfl, Store.length_set_of_get_none codes freshCode _ hfresh⟩

/-- Witness for C10 at a concrete unparsable request and empty store. -/
theorem C10_failed_authorize_grows_store_witness :
    (authorize (fun _ => none) "ac1" 0 none (some "not a url") none none none
        none none []).1 = .badRequest "invalid_redirect_uri"
    ∧ (authorize (fun _ => none) "ac1" 0 none (some "not a url") none none none
        none none []).2
      = Store.set [] "ac1"
          { client_id := jsOr none "tmdb-mcp-client",
            redirect_uri := some "not a url",
            scope := (none : Option String).getD "tmdb:read",
            code_challenge := none,
            code_challenge_method := (none : Option String).getD "S256",
            expires_at := 0 + 600000 }
    ∧ (authorize (fun _ => none) "ac1" 0 none (some "not a url") none none none
        none none []).2.length = List.length ([] : Store CodeRecord) + 1 :=
  C10_failed_authorize_grows_store (fun _ => none) "ac1" 0 none (some "not a url")
    none none none none none [] (by decide) (by decide)

theorem jsOr_some_ne (s d : String) (h : s ≠ "") : jsOr (some s) d = s := by
  have hgoal : jsOr (some s) d = if s.isEmpty then d else s := rfl
  rw [hgoal]
  cases he : s.isEmpty with
  | false => rfl
  | true => exact absurd ((String.isEmpty_iff s).mp he) h

/-- Stream-open handler of the streamable-HTTP transport file
(app.get on /mcp, lines 165 to 180).  The registry maps a session id to
the identity of the transport object bound to it (modelled as a natural
number).  The session id is the mcp-session-id header when truthy,
otherwise a fresh randomUUID(); when the registry already holds an entry
for the id the existing transport is reused and the registry is left
unchanged, otherwise a fresh transport is created and registered. -/
def openStream (transports : Store Nat) (headerSid : Option String)
    (freshSid : String) (freshTransport : Nat) : (String × Nat) × Store Nat :=
  match Store.get transports (jsOr headerSid freshSid) with
  | some t => ((jsOr headerSid freshSid, t), transports)
  | none => ((jsOr headerSid freshSid, freshTransport),
             Store.set transports (jsOr headerSid freshSid) freshTransport)

theorem openStream_get_none (transports : Store Nat) (headerSid : Option String)
    (freshSid : String) (freshTransport : Nat)
    (hg : Store.get transports (jsOr headerSid freshSid) = none) :
    openStream transports headerSid freshSid freshTransport
      = ((jsOr headerSid freshSid, freshTransport),
         Store.set transports (jsOr headerSid freshSid) freshTransport) := by
  unfold openStream
  rw [hg]

theorem openStream_get_some (transports : Store Nat) (headerSid : Option String)
    (freshSid : String) (freshTransport : Nat) (t : Nat)
    (hg : Store.get transports (jsOr headerSid freshSid) = some t) :
    openStream transports headerSid freshSid freshTransport
      = ((jsOr headerSid freshSid, t), transports) := by
  unfold openStream
  rw [hg]

/-- Counterexample to C5 as stated: opening the stream twice with the
same session id "s" and two distinct fresh transports leaves the single
registry entry bound to the FIRST transport (identity 1); the second open
reuses the earlier mapping instead of replacing it with the newer stream
(identity 2). -/
theorem C5_second_open_counterexample :
    Store.get (openStream (openStream [] (some "s") "f1" 1).2
      (some "s") "f2" 2).2 "s" = some 1
    ∧ Store.get (openStream (openStream [] (some "s") "f1" 1).2
      (some "s") "f2" 2).2 "s" ≠ some 2 := by
  decide

/-- C5 amended: after two stream-open requests with the same (truthy)
session id, exactly one registry entry exists for that id, and it is
still bound to the transport created by the first open; the second open
reuses, rather than replaces, the earlier mapping. -/
theorem C5_takeover_amended (reg : Store Nat) (sid f1 f2 : String) (t1 t2 : Nat)
    (hs : sid ≠ "") (hfresh : Store.get reg sid = none) :
    Store.get (openStream (openStream reg (some sid) f1 t1).2
      (some sid) f2 t2).2 sid = some t1
    ∧ Store.countKey (openStream (openStream reg (some sid) f1 t1).2
      (some sid) f2 t2).2 sid = 1 := by
  have e1 := jsOr_some_ne sid f1 hs
  have e2 := jsOr_some_ne sid f2 hs
  have h1 : (openStream reg (some sid) f1 t1).2 = Store.set reg sid t1 := by
    rw [openStream_get_none reg (some sid) f1 t1 (by rw [e1]; exact hfresh), e1]
  have h2 : Store.get (Store.set reg sid t1) (jsOr (some sid) f2) = some t1 := by
    rw [e2]; exact Store.get_set_self reg sid t1
  have h3 : (openStream (Store.set reg sid t1) (some sid) f2 t2).2
      = Store.set reg sid t1 := by
    rw [openStream_get_some (Store.set reg sid t1) (some sid) f2 t2 t1 h2]
  rw [h1, h3]
  exact ⟨Store.get_set_self reg sid t1, Store.countKey_set_self reg sid t1⟩

/-- Witness for the amended C5 at a concrete registry and id. -/
theorem C5_takeover_amended_witness :
    Store.get (openStream (openStream [] (some "sess") "f1" 1).2
      (some "sess") "f2" 2).2 "sess" = some 1
    ∧ Store.countKey (openStream (openStream [] (some "sess") "f1" 1).2
      (some "sess") "f2" 2).2 "sess" = 1 :=
  C5_takeover_amended [] "sess" "f1" "f2" 1 2 (by decide) (by decide)

/-- Result of the command-post handler of the streamable-HTTP transport
file: the handler always processes the message on some transport (the
result type has no failure case, which is the point of the C6
counterexample). -/
inductive McpPostResult where
  | processed (sessionId : String) (transportId : Nat)
  deriving DecidableEq

/-- Command-post handler of the streamable-HTTP transport file (app.post
on /mcp, lines 147 to 162): reuse the registered transport when the
session id is known, otherwise create and register a fresh transport, and
in both cases hand the message to that transport. -/
def handlePostMcp (transports : Store Nat) (headerSid : Option String)
    (freshSid : String) (freshTransport : Nat) : McpPostResult × Store Nat :=
  match Store.get transports (jsOr headerSid freshSid) with
  | some t => (.processed (jsOr headerSid freshSid) t, transports)
  | none => (.processed (jsOr headerSid freshSid) freshTransport,
             Store.set transports (jsOr headerSid freshSid) freshTransport)

/-- Counterexample to C6 as stated: in the streamable-HTTP transport file
(one of the two cited command-post endpoints) a posted command carrying a
session id that is not registered is not rejected with SessionNotFound;
the handler silently creates a fresh transport under that id and
processes the command. -/
theorem C6_mcp_post_counterexample :
    (handlePostMcp [] (some "ghost") "f" 7).1 = .processed "ghost" 7
    ∧ (handlePostMcp [] (some "ghost") "f" 7).2 = [("ghost", 7)] := by
  decide

/-- Lookup of a possibly absent session id in the transports registry of
the SSE transport file (transports[sessionId] with sessionId possibly
undefined). -/
def registryLookup (transports : Store Nat) (sessionId : Option String) : Option Nat :=
  match sessionId with
  | none => none
  | some sid => Store.get transports sid

/-- Result of the command-post handler of the SSE transport file: the
message is handled on the bound transport, or answered with the 400 "No
transport found for sessionId" failure. -/
inductive MessagesResult where
  | handled (transportId : Nat)
  | noTransport
  deriving DecidableEq

/-- Command-post handler of the SSE transport file (app.post on
/messages, lines 250 to 268): the transport bound to req.query.sessionId
handles the message; when no transport is registered under the id the
handler answers 400 "No transport found for sessionId". -/
def handleMessages (transports : Store Nat) (sessionId : Option String) :
    MessagesResult :=
  match registryLookup transports sessionId with
  | some t => .handled t
  | none => .noTransport

/-- C6 amended: the command-post endpoint of the SSE transport file fails
with the SessionNotFound answer (400, no transport found) for every
posted command whose session id is absent or not registered, and never
handles such a command; the command-post endpoint of the streamable-HTTP
transport file instead creates a fresh session for an unknown id and
processes the command. -/
theorem C6_unknown_session_amended (transports : Store Nat) (sid : String)
    (hunknown : Store.get transports sid = none) :
    handleMessages transports (some sid) = .noTransport
    ∧ handleMessages transports none = .noTransport
    ∧ ∀ t, handleMessages transports (some sid) ≠ .handled t := by
  have hl : registryLookup transports (some sid) = none := hunknown
  have h1 : handleMessages transports (some sid) = .noTransport := by
    unfold handleMessages
    rw [hl]
  exact ⟨h1, rfl, fun t h => by rw [h1] at h; exact nomatch h⟩

/-- Witness for the amended C6: an unknown id is rejected even when the
registry holds live entries under other ids. -/
theorem C6_unknown_session_amended_witness :
    handleMessages [("live", 3)] (some "ghost") = .noTransport
    ∧ handleMessages [("live", 3)] none = .noTransport
    ∧ ∀ t, handleMessages [("live", 3)] (some "ghost") ≠ .handled t :=
  C6_unknown_session_amended [("live", 3)] "ghost" (by decide)

theorem string_append_ne_empty (s t : String) (h : s ≠ "") : s ++ t ≠ "" := by
  cases s with
  | mk sd =>
    cases t with
    | mk td =>
      intro heq
      apply h
      have h2 : sd ++ td = ([] : List Char) := congrArg String.data heq
      have h3 : sd = [] := (List.append_eq_nil.mp h2).1
      rw [h3]

/-- One content block of a ToolResult (text is the only kind the sources
produce). -/
structure ContentBlock where
  type : String
  text : String
  deriving DecidableEq

/-- Result envelope of a tool invocation.  Success envelopes in the
sources have no isError field at all; reading the absent field yields a
falsy value, modelled as isError = false. -/
structure ToolResult where
  content : List ContentBlock
  isError : Bool
  deriving DecidableEq

/-- Outcome of one collaborator call in the chatgpt variant: the awaited
fetch plus response.json() pair either throws (network failure or a body
that fails to parse, carrying the error message) or resolves with an HTTP
status code and the stringified JSON body.  The status is carried here
because nothing in the handler ever reads response.ok or response.status:
a non-2xx answer whose body parses resolves like any other. -/
inductive FetchOutcome where
  | thrown (e : String)
  | resolved (status : Nat) (body : String)
  deriving DecidableEq

/-- Try-block of the CallToolRequestSchema handler of the chatgpt variant
(lines 82 to 120): the search and fetch arms each perform one collaborator
call and wrap the stringified payload in a text content block whatever the
HTTP status was, so a resolved non-2xx JSON error body is returned as a
success envelope; only a thrown failure escapes to the catch-block.  An
unknown tool name throws.  The TMDB key check at startup is outside this
handler. -/
def callToolChatgptBody (name : String) (searchResp fetchResp : FetchOutcome) :
    Except String ToolResult :=
  if name = "search" then
    match searchResp with
    | .thrown e => .error e
    | .resolved _ body =>
        .ok { content := [{ type := "text", text := body }], isError := false }
  else if name = "fetch" then
    match fetchResp with
    | .thrown e => .error e
    | .resolved _ body =>
        .ok { content := [{ type := "text", text := body }], isError := false }
  else .error ("Unknown tool: " ++ name)

/-- Catch-block of the chatgpt variant (lines 121 to 131): any thrown
failure of the try-block is converted into a result envelope whose single
text block describes the error and whose isError flag is set. -/
def wrapCatch (body : Except String ToolResult) : ToolResult :=
  match body with
  | .ok r => r
  | .error e => { content := [{ type := "text", text := "Error: " ++ e }], isError := true }

/-- CallToolRequestSchema handler of the chatgpt variant: try-block plus
catch-block. -/
def callToolChatgpt (name : String) (searchResp fetchResp : FetchOutcome) :
    ToolResult :=
  wrapCatch (callToolChatgptBody name searchResp fetchResp)

/-- Raw movie record of the TMDB search payload, restricted to the fields
the mapping reads. -/
structure RawMovie where
  id : Nat
  title : String
  release_date : Option String
  deriving DecidableEq

/-- One entry of the mapped search result list. -/
structure SearchEntry where
  id : String
  title : String
  url : String
  deriving DecidableEq

/-- First chunk of String.prototype.split(sep), the only part the source
reads (release_date.split, index 0). -/
def splitHead (s : String) (sep : Char) : String :=
  String.mk (s.data.takeWhile (fun c => c ≠ sep))

/-- Release-year component of the composed title:
movie.release_date?.split en dash, index 0, with the JavaScript || fall
back to "Unknown" for an absent date or an empty first chunk. -/
def movieYear : Option String → String
  | none => "Unknown"
  | some s => jsOr (some (splitHead s '-')) "Unknown"

/-- Search mapping of the final and SSE OAuth variants (lines 91 to 97 of
server-final.js): data.results (undefined gives the empty list), sliced
to at most ten records, each mapped to an id string, a composed
"title (year)" title and a deterministic TMDB URL built from the id. -/
def mapSearchResults (results : Option (List RawMovie)) : List SearchEntry :=
  match results with
  | none => []
  | some ms =>
    (ms.take 10).map (fun movie =>
      { id := toString movie.id,
        title := movie.title ++ " (" ++ movieYear movie.release_date ++ ")",
        url := "https://www.themoviedb.org/movie/" ++ toString movie.id })

/-- Try-block of the CallToolRequestSchema handler of the final variant
(lines 84 to 126).  The stringify parameter stands for JSON.stringify on
the mapped results object; the fetch arm is modelled with the
collaborator returning the already-stringified document. -/
def callToolFinalBody (stringify : List SearchEntry → String) (name : String)
    (searchResp : Except String (Option (List RawMovie)))
    (fetchResp : Except String String) : Except String ToolResult :=
  if name = "search" then
    searchResp.map (fun data =>
      { content := [{ type := "text", text := stringify (mapSearchResults data) }],
        isError := false })
  else if name = "fetch" then
    fetchResp.map (fun doc =>
      { content := [{ type := "text", text := doc }], isError := false })
  else .error ("Unknown tool: " ++ name)

/-- CallToolRequestSchema handler of the final variant, whose catch-block
(lines 127 to 130) rethrows a wrapped Error instead of returning an
isError envelope: the failure leaves the handler as an exception. -/
def callToolFinal (stringify : List SearchEntry → String) (name : String)
    (searchResp : Except String (Option (List RawMovie)))
    (fetchResp : Except String String) : Except String ToolResult :=
  match callToolFinalBody stringify name searchResp fetchResp with
  | .ok r => .ok r
  | .error e => .error ("Tool failed: " ++ e)

/-- Counterexample to C7 as stated: in the final variant (one of the two
cited handlers) a failing collaborator call does not produce an isError
result envelope; the catch-block rethrows a wrapped Error, so the failure
propagates out of the tool handler as an exception. -/
theorem C7_final_rethrow_counterexample :
    callToolFinal (fun _ => "") "fetch" (.error "network error") (.error "network error")
      = .error "Tool failed: network error" := by
  rfl

/-- C7 amended: in the chatgpt variant every thrown collaborator failure
(network error or malformed payload) and every unknown tool name yields a
result envelope whose isError flag is set and whose single content block
is a nonempty text block; a collaborator response that resolves with a
non-2xx status is not treated as a failure, because the handler never
reads the response status: the body comes back in a success envelope with
no isError flag; and the final variant rethrows a wrapped Error from its
catch-block instead of returning an envelope. -/
theorem C7_error_envelope_amended (name e1 e2 b1 b2 : String) (st1 st2 : Nat) :
    ((callToolChatgpt name (.thrown e1) (.thrown e2)).isError = true
     ∧ (callToolChatgpt name (.thrown e1) (.thrown e2)).content.length = 1
     ∧ ∀ b ∈ (callToolChatgpt name (.thrown e1) (.thrown e2)).content,
         b.type = "text" ∧ b.text ≠ "")
    ∧ callToolChatgpt "search" (.resolved st1 b1) (.resolved st2 b2)
        = { content := [{ type := "text", text := b1 }], isError := false }
    ∧ callToolChatgpt "fetch" (.resolved st1 b1) (.resolved st2 b2)
        = { content := [{ type := "text", text := b2 }], isError := false } := by
  refine ⟨?_, rfl, rfl⟩
  by_cases h1 : name = "search"
  · subst h1
    have hcall : callToolChatgpt "search" (.thrown e1) (.thrown e2)
        = ⟨[⟨"text", "Error: " ++ e1⟩], true⟩ := rfl
    rw [hcall]
    refine ⟨rfl, rfl, ?_⟩
    intro b hb
    rw [List.mem_singleton] at hb
    subst hb
    exact ⟨rfl, string_append_ne_empty "Error: " e1 (by decide)⟩
  · by_cases h2 : name = "fetch"
    · subst h2
      have hcall : callToolChatgpt "fetch" (.thrown e1) (.thrown e2)
          = ⟨[⟨"text", "Error: " ++ e2⟩], true⟩ := rfl
      rw [hcall]
      refine ⟨rfl, rfl, ?_⟩
      intro b hb
      rw [List.mem_singleton] at hb
      subst hb
      exact ⟨rfl, string_append_ne_empty "Error: " e2 (by decide)⟩
    · have hbody : callToolChatgptBody name (.thrown e1) (.thrown e2)
          = .error ("Unknown tool: " ++ name) := by
        unfold callToolChatgptBody
        rw [if_neg h1, if_neg h2]
      have hcall : callToolChatgpt name (.thrown e1) (.thrown e2)
          = ⟨[⟨"text", "Error: " ++ ("Unknown tool: " ++ name)⟩], true⟩ := by
        unfold callToolChatgpt
        rw [hbody]
        rfl
      rw [hcall]
      refine ⟨rfl, rfl, ?_⟩
      intro b hb
      rw [List.mem_singleton] at hb
      subst hb
      exact ⟨rfl, string_append_ne_empty "Error: "
        ("Unknown tool: " ++ name) (by decide)⟩

/-- Witness for the amended C7: a thrown network failure on fetch yields
the isError envelope, while a resolved 404 JSON error body comes back as
a success envelope without the flag. -/
theorem C7_error_envelope_amended_witness :
    ((callToolChatgpt "fetch" (.thrown "network error")
        (.thrown "network error")).isError = true
     ∧ (callToolChatgpt "fetch" (.thrown "network error")
        (.thrown "network error")).content.length = 1
     ∧ ∀ b ∈ (callToolChatgpt "fetch" (.thrown "network error")
        (.thrown "network error")).content, b.type = "text" ∧ b.text ≠ "")
    ∧ callToolChatgpt "search" (.resolved 404 "status_message not found")
        (.resolved 404 "status_message not found")
        = { content := [{ type := "text", text := "status_message not found" }],
            isError := false }
    ∧ callToolChatgpt "fetch" (.resolved 404 "status_message not found")
        (.resolved 404 "status_message not found")
        = { content := [{ type := "text", text := "status_message not found" }],
            isError := false } :=
  C7_error_envelope_amended "fetch" "network error" "network error"
    "status_message not found" "status_message not found" 404 404

/-- C8: a collaborator response holding exactly one record is mapped to
exactly one search entry whose id is the decimal rendering of the record
id, whose title composes the record title with the extracted release year
(falling back to Unknown for an absent date), and whose url is built from
the id; the year of a concrete date string is its leading component; and
every mapped result list holds at most ten entries. -/
theorem C8_search_mapping (m : RawMovie) (results : Option (List RawMovie)) :
    mapSearchResults (some [m])
      = [{ id := toString m.id,
           title := m.title ++ " (" ++ movieYear m.release_date ++ ")",
           url := "https://www.themoviedb.org/movie/" ++ toString m.id }]
    ∧ movieYear none = "Unknown"
    ∧ movieYear (some "1999-10-15") = "1999"
    ∧ (mapSearchResults results).length ≤ 10 := by
  refine ⟨rfl, rfl, by decide, ?_⟩
  cases results with
  | none => simp [mapSearchResults]
  | some ms =>
      simp only [mapSearchResults, List.length_map, List.length_take]
      exact min_le_left 10 ms.length
